import Mathlib

/-!
Shallow embedding of the request-validation middleware in `src/src/index.ts`
(zod-express-middleware-with-nextjs-api-utils).

Modelling choices:
* A request section (`params`, `query`, `body`) is a JS object, modelled as an
  association list `Obj := List (String × Int)` without duplicate-key concerns:
  JS object spread `{...a, ...b}` is modelled by `spreadMerge`, which keeps
  `a`'s keys in order (values overridden by `b` on collision) followed by the
  keys of `b` not present in `a` — exactly the enumeration-order semantics of
  the spread operator on plain objects.
* A zod schema is its `safeParse` behaviour: a function from a raw section
  value to either `success data` or `failure error`, where an error is the
  engine-native list of path+message issues.
* A middleware `Step` `(req, res, next) => void` is modelled as a function
  `Request → Outcome`: `Outcome.advance r` means `next()` was called exactly
  once and the request object was left in state `r`; `Outcome.respond r env`
  means the response `env` was written (exactly one response) and `next()` was
  never called, with the request object left in state `r`.  Every code path of
  every middleware in the source is a straight line ending in a single
  `return next()` or a single `return sendErrors(...)`, so this is faithful.
* `sendErrors` in `src/src/index.ts` delegates to `answer(req, res,
  {statusCode: 400, errorCode: ErrorCodes.BAD_REQUEST, meta, ...})` from the
  external `nextjs-api-utils` package; the sibling implementation in
  `src/unnamed/part_000` (lines 35–41) writes the same envelope inline:
  `res.status(400).json({success: false, errorCode: 'bad_request', meta})`.
  We model the written envelope by that shape.
-/

namespace ZodMiddleware

/-- A JS object value for a request section: an ordered association list of
string keys to (scalar) values. -/
abbrev Obj := List (String × Int)

/-- Look up the value stored at key `k` of object `o`. -/
def lookupKey (o : Obj) (k : String) : Option Int :=
  (o.find? (fun p => p.1 = k)).map (fun p => p.2)

/-- Does object `o` have key `k`? -/
def hasKey (o : Obj) (k : String) : Bool :=
  o.any (fun p => p.1 = k)

/-- JS object spread `{...a, ...b}`: `a`'s keys in their order, with `b`'s
value winning on key collision, followed by `b`'s keys that are new. -/
def spreadMerge (a b : Obj) : Obj :=
  (a.map (fun p =>
    match lookupKey b p.1 with
    | some v => (p.1, v)
    | none => p))
  ++ b.filter (fun q => !hasKey a q.1)

/-- One zod issue: a field path and a message. -/
structure ZodIssue where
  path : List String
  message : String
deriving DecidableEq, Repr

/-- A zod error: the engine-native ordered list of issues. -/
abbrev ZodError := List ZodIssue

/-- Result of `schema.safeParse(value)`. -/
inductive SafeParseResult where
  | success (data : Obj)
  | failure (error : ZodError)
deriving DecidableEq, Repr

/-- A zod schema, identified with its `safeParse` behaviour. -/
abbrev ZodSchema := Obj → SafeParseResult

/-- The section tag of an error list item: `'Params' | 'Query' | 'Body'`. -/
inductive SectionType where
  | Params
  | Query
  | Body
deriving DecidableEq, Repr

/-- `ErrorListItem` from the source: `{ type, errors }`. -/
structure ErrorListItem where
  type : SectionType
  errors : ZodError
deriving DecidableEq, Repr

/-- The JSON error envelope written on validation failure, together with the
HTTP status code it is sent with. -/
structure ErrorEnvelope where
  statusCode : Nat
  success : Bool
  errorCode : String
  meta : List ErrorListItem
deriving DecidableEq, Repr

/-- `sendErrors` (src/unnamed/part_000 lines 35–41, and the wire format of
`answer(..., {statusCode: 400, errorCode: BAD_REQUEST, meta})` in
src/src/index.ts lines 35–47): one status-400 response whose body is
`{success: false, errorCode: "bad_request", meta: errors.map(e => ({type: e.type, errors: e.errors}))}`. -/
def sendErrors (errors : List ErrorListItem) : ErrorEnvelope :=
  { statusCode := 400
    success := false
    errorCode := "bad_request"
    meta := errors.map (fun e => { type := e.type, errors := e.errors }) }

/-- The mutable request object: its three sections. -/
structure Request where
  params : Obj
  query : Obj
  body : Obj
deriving DecidableEq, Repr

/-- The observable outcome of running one middleware step on a request:
either the continuation was invoked (exactly once) leaving the request in the
given state, or a response envelope was written (exactly once, continuation
never invoked) leaving the request in the given state. -/
inductive Outcome where
  | advance (req : Request)
  | respond (req : Request) (env : ErrorEnvelope)
deriving DecidableEq, Repr

/-- A middleware step `(req, res, next) => void`. -/
abbrev Step := Request → Outcome

/-- How many times the continuation `next` was invoked in an outcome. -/
def nextCalls : Outcome → Nat
  | .advance _ => 1
  | .respond _ _ => 0

/-- How many responses were written in an outcome. -/
def responsesWritten : Outcome → Nat
  | .advance _ => 0
  | .respond _ _ => 1

/-- The request state an outcome leaves behind. -/
def outcomeReq : Outcome → Request
  | .advance r => r
  | .respond r _ => r

/-- `processRequestBody` (src/src/index.ts lines 58–70): parse `req.body`;
on success replace `req.body` with the coerced data and call `next()`;
on failure send a single `Body` error item. -/
def processRequestBody (effectsSchema : ZodSchema) : Step := fun req =>
  match effectsSchema req.body with
  | .success data => .advance { req with body := data }
  | .failure e => .respond req (sendErrors [{ type := SectionType.Body, errors := e }])

/-- `processRequestParams` (src/src/index.ts lines 72–84): the source parses
`req.query` (line 76) and on success merges the coerced data into `req.query`
(line 78); only the error label says `'Params'`. -/
def processRequestParams (effectsSchema : ZodSchema) : Step := fun req =>
  match effectsSchema req.query with
  | .success data => .advance { req with query := spreadMerge req.query data }
  | .failure e => .respond req (sendErrors [{ type := SectionType.Params, errors := e }])

/-- `processRequestQuery` (src/src/index.ts lines 86–98): parse `req.query`;
on success merge the coerced data into `req.query` via object spread. -/
def processRequestQuery (effectsSchema : ZodSchema) : Step := fun req =>
  match effectsSchema req.query with
  | .success data => .advance { req with query := spreadMerge req.query data }
  | .failure e => .respond req (sendErrors [{ type := SectionType.Query, errors := e }])

/-- A `RequestValidation`/`RequestProcessing` schema set: an optional schema
per section. -/
structure RequestValidation where
  params : Option ZodSchema
  query : Option ZodSchema
  body : Option ZodSchema

/-- The `if (schemas.params) {...}` block of `processRequest`
(src/src/index.ts lines 111–118), as a transformer of the running
`(request, errors)` state: parse `req.params` (line 112); on success merge
the coerced data into `req.query` (line 114 — the source really writes
`req.query` here, not `req.params`); on failure push a `Params` error. -/
def paramsBlock (os : Option ZodSchema) :
    Request × List ErrorListItem → Request × List ErrorListItem
  | (req, errors) =>
    match os with
    | none => (req, errors)
    | some schema =>
      match schema req.params with
      | .success data => ({ req with query := spreadMerge req.query data }, errors)
      | .failure e => (req, errors ++ [{ type := SectionType.Params, errors := e }])

/-- The `if (schemas.query) {...}` block of `processRequest`
(src/src/index.ts lines 119–126): parse `req.query` as the params block left
it; on success merge the coerced data into `req.query`; on failure push a
`Query` error. -/
def queryBlock (os : Option ZodSchema) :
    Request × List ErrorListItem → Request × List ErrorListItem
  | (req, errors) =>
    match os with
    | none => (req, errors)
    | some schema =>
      match schema req.query with
      | .success data => ({ req with query := spreadMerge req.query data }, errors)
      | .failure e => (req, errors ++ [{ type := SectionType.Query, errors := e }])

/-- The `if (schemas.body) {...}` block of `processRequest`
(src/src/index.ts lines 127–134): parse `req.body` as the earlier blocks
left it; on success replace `req.body` wholesale; on failure push a `Body`
error. -/
def bodyBlock (os : Option ZodSchema) :
    Request × List ErrorListItem → Request × List ErrorListItem
  | (req, errors) =>
    match os with
    | none => (req, errors)
    | some schema =>
      match schema req.body with
      | .success data => ({ req with body := data }, errors)
      | .failure e => (req, errors ++ [{ type := SectionType.Body, errors := e }])

/-- `processRequest` (src/src/index.ts lines 106–140): starting from the
incoming request and an empty error list, run the params, query, and body
blocks unconditionally in that order; then `errors.length > 0` sends all
collected errors in one envelope, otherwise `next()` is called. -/
def processRequest (schemas : RequestValidation) : Step := fun req =>
  let s := bodyBlock schemas.body (queryBlock schemas.query (paramsBlock schemas.params (req, [])))
  if s.2.length > 0 then Outcome.respond s.1 (sendErrors s.2)
  else Outcome.advance s.1

/-- `validateRequestBody` (src/src/index.ts lines 142–149): parse `req.body`;
on success call `next()` without touching the request; on failure send a
single `Body` error item. -/
def validateRequestBody (schema : ZodSchema) : Step := fun req =>
  match schema req.body with
  | .success _ => .advance req
  | .failure e => .respond req (sendErrors [{ type := SectionType.Body, errors := e }])

/-- `validateRequestParams` (src/src/index.ts lines 151–159): parse
`req.params`; on success call `next()`; on failure send a single `Params`
error item. -/
def validateRequestParams (schema : ZodSchema) : Step := fun req =>
  match schema req.params with
  | .success _ => .advance req
  | .failure e => .respond req (sendErrors [{ type := SectionType.Params, errors := e }])

/-- `validateRequestQuery` (src/src/index.ts lines 161–169): parse
`req.query`; on success call `next()`; on failure send a single `Query`
error item. -/
def validateRequestQuery (schema : ZodSchema) : Step := fun req =>
  match schema req.query with
  | .success _ => .advance req
  | .failure e => .respond req (sendErrors [{ type := SectionType.Query, errors := e }])

/-- `validateRequest` (src/src/index.ts lines 171–199), mirrored block by
block: each configured section is parsed against the original request
sections in the order params, query, body, pushing an error item on failure
and never mutating anything; at the end, `errors.length > 0` sends all
collected errors, otherwise `next()` is called. -/
def validateRequest (schemas : RequestValidation) : Step := fun req =>
  let e1 : List ErrorListItem :=
    match schemas.params with
    | none => []
    | some schema =>
      match schema req.params with
      | .success _ => []
      | .failure e => [{ type := SectionType.Params, errors := e }]
  let e2 : List ErrorListItem :=
    match schemas.query with
    | none => e1
    | some schema =>
      match schema req.query with
      | .success _ => e1
      | .failure e => e1 ++ [{ type := SectionType.Query, errors := e }]
  let e3 : List ErrorListItem :=
    match schemas.body with
    | none => e2
    | some schema =>
      match schema req.body with
      | .success _ => e2
      | .failure e => e2 ++ [{ type := SectionType.Body, errors := e }]
  if e3.length > 0 then Outcome.respond req (sendErrors e3)
  else Outcome.advance req

/-! ## Spec-side descriptions

Declarative descriptions of what the aggregate middlewares do, assembled
section by section, used to state the claims.  `sectionEntry` is the
`ViolationEntry` a configured section contributes when its parse of the
given value fails (empty when the section passes or is not configured). -/

/-- The error items contributed by one optional section schema evaluated on
value `v`: none if unconfigured or passing, one tagged item if failing. -/
def sectionEntry (t : SectionType) (os : Option ZodSchema) (v : Obj) :
    List ErrorListItem :=
  match os with
  | none => []
  | some s =>
    match s v with
    | .success _ => []
    | .failure e => [{ type := t, errors := e }]

/-- The request state after the params block of `processRequest`: on a
successful parse of `req.params` the coerced data is merged into
`req.query`; otherwise the request is untouched. -/
def paramsStepState (os : Option ZodSchema) (req : Request) : Request :=
  match os with
  | none => req
  | some s =>
    match s req.params with
    | .success d => { req with query := spreadMerge req.query d }
    | .failure _ => req

/-- The request state after the query block of `processRequest`: on a
successful parse of `req.query` the coerced data is merged into `req.query`;
otherwise the request is untouched. -/
def queryStepState (os : Option ZodSchema) (req : Request) : Request :=
  match os with
  | none => req
  | some s =>
    match s req.query with
    | .success d => { req with query := spreadMerge req.query d }
    | .failure _ => req

/-- The request state after the body block of `processRequest`: on a
successful parse of `req.body` the body is replaced wholesale; otherwise the
request is untouched. -/
def bodyStepState (os : Option ZodSchema) (req : Request) : Request :=
  match os with
  | none => req
  | some s =>
    match s req.body with
    | .success d => { req with body := d }
    | .failure _ => req

/-- The request state `processRequest` leaves behind: the three section
blocks applied in order params, query, body. -/
def processRequestFinal (schemas : RequestValidation) (req : Request) : Request :=
  bodyStepState schemas.body (queryStepState schemas.query (paramsStepState schemas.params req))

/-- The ordered violation list `processRequest` collects: the entry of each
failing configured section in the fixed order params, query, body, each
section evaluated on the value it sees at its point in the sequence. -/
def processRequestMeta (schemas : RequestValidation) (req : Request) :
    List ErrorListItem :=
  sectionEntry SectionType.Params schemas.params req.params
    ++ sectionEntry SectionType.Query schemas.query (paramsStepState schemas.params req).query
    ++ sectionEntry SectionType.Body schemas.body
        (queryStepState schemas.query (paramsStepState schemas.params req)).body

/-- The ordered violation list `validateRequest` collects: the entry of each
failing configured section in the fixed order params, query, body, each
evaluated on the original request's sections. -/
def validateRequestMeta (schemas : RequestValidation) (req : Request) :
    List ErrorListItem :=
  sectionEntry SectionType.Params schemas.params req.params
    ++ sectionEntry SectionType.Query schemas.query req.query
    ++ sectionEntry SectionType.Body schemas.body req.body

/-! ## Characterization lemmas -/

theorem paramsBlock_eq (os : Option ZodSchema) (req : Request)
    (errors : List ErrorListItem) :
    paramsBlock os (req, errors) =
      (paramsStepState os req, errors ++ sectionEntry SectionType.Params os req.params) := by
  rcases os with _ | s
  · simp [paramsBlock, paramsStepState, sectionEntry]
  · cases h : s req.params <;>
      simp [paramsBlock, paramsStepState, sectionEntry, h]

theorem queryBlock_eq (os : Option ZodSchema) (req : Request)
    (errors : List ErrorListItem) :
    queryBlock os (req, errors) =
      (queryStepState os req, errors ++ sectionEntry SectionType.Query os req.query) := by
  rcases os with _ | s
  · simp [queryBlock, queryStepState, sectionEntry]
  · cases h : s req.query <;>
      simp [queryBlock, queryStepState, sectionEntry, h]

theorem bodyBlock_eq (os : Option ZodSchema) (req : Request)
    (errors : List ErrorListItem) :
    bodyBlock os (req, errors) =
      (bodyStepState os req, errors ++ sectionEntry SectionType.Body os req.body) := by
  rcases os with _ | s
  · simp [bodyBlock, bodyStepState, sectionEntry]
  · cases h : s req.body <;>
      simp [bodyBlock, bodyStepState, sectionEntry, h]

theorem paramsStepState_params (os : Option ZodSchema) (req : Request) :
    (paramsStepState os req).params = req.params := by
  rcases os with _ | s
  · rfl
  · cases h : s req.params <;> simp [paramsStepState, h]

theorem paramsStepState_body (os : Option ZodSchema) (req : Request) :
    (paramsStepState os req).body = req.body := by
  rcases os with _ | s
  · rfl
  · cases h : s req.params <;> simp [paramsStepState, h]

theorem queryStepState_params (os : Option ZodSchema) (req : Request) :
    (queryStepState os req).params = req.params := by
  rcases os with _ | s
  · rfl
  · cases h : s req.query <;> simp [queryStepState, h]

theorem queryStepState_body (os : Option ZodSchema) (req : Request) :
    (queryStepState os req).body = req.body := by
  rcases os with _ | s
  · rfl
  · cases h : s req.query <;> simp [queryStepState, h]

theorem bodyStepState_params (os : Option ZodSchema) (req : Request) :
    (bodyStepState os req).params = req.params := by
  rcases os with _ | s
  · rfl
  · cases h : s req.body <;> simp [bodyStepState, h]

theorem bodyStepState_query (os : Option ZodSchema) (req : Request) :
    (bodyStepState os req).query = req.query := by
  rcases os with _ | s
  · rfl
  · cases h : s req.body <;> simp [bodyStepState, h]

/-- `processRequest` equals its declarative description: run all three
blocks, then respond with the collected violation list when it is nonempty
and advance otherwise. -/
theorem processRequest_eq_spec (schemas : RequestValidation) (req : Request) :
    processRequest schemas req =
      (if (processRequestMeta schemas req).length > 0 then
        Outcome.respond (processRequestFinal schemas req)
          (sendErrors (processRequestMeta schemas req))
      else Outcome.advance (processRequestFinal schemas req)) := by
  simp [processRequest, paramsBlock_eq, queryBlock_eq, bodyBlock_eq,
    processRequestMeta, processRequestFinal,
    queryStepState_body, List.append_assoc]

/-- `validateRequest` equals its declarative description: collect the entry
of each failing configured section against the original request, then
respond with the list when nonempty and advance otherwise, never mutating
the request. -/
theorem validateRequest_eq_spec (schemas : RequestValidation) (req : Request) :
    validateRequest schemas req =
      (if (validateRequestMeta schemas req).length > 0 then
        Outcome.respond req (sendErrors (validateRequestMeta schemas req))
      else Outcome.advance req) := by
  rcases schemas with ⟨op, oq, ob⟩
  simp only [validateRequest, validateRequestMeta, sectionEntry]
  rcases op with _ | sp <;> rcases oq with _ | sq <;> rcases ob with _ | sb
  all_goals try cases hp : sp req.params
  all_goals try cases hq : sq req.query
  all_goals try cases hb : sb req.body
  all_goals simp_all

/-! ## Concrete fixtures for witnesses and counterexamples -/

/-- A schema that accepts any value and returns it unchanged. -/
def acceptIdSchema : ZodSchema := fun v => SafeParseResult.success v

/-- The error a missing required `name` field produces. -/
def requiredErr : ZodError := [{ path := ["name"], message := "Required" }]

/-- A schema that rejects every value with one `Required` issue at `name`. -/
def rejectSchema : ZodSchema := fun _ => SafeParseResult.failure requiredErr

/-- A request whose three sections are all empty objects. -/
def emptyReq : Request := { params := [], query := [], body := [] }

/-- A schema set with no section configured. -/
def noSchemas : RequestValidation := { params := none, query := none, body := none }

/-- A schema set whose params and body schemas always fail and whose query
section is not configured. -/
def pbFailSchemas : RequestValidation :=
  { params := some rejectSchema, query := none, body := some rejectSchema }

/-! ## Claims -/

/-- Claim C1: for every request and every schema set, the aggregate step
returned by `processRequest`/`validateRequest` evaluates every populated
section (params, then query, then body) unconditionally, never stopping at
the first failure; if any section failed it writes a single error envelope
whose meta is exactly the violation-entry list of the failing sections in
the fixed order params, query, body (passing or unconfigured sections
absent), and if no section failed it invokes the continuation exactly
once. -/
theorem claim1_aggregate_all_sections (schemas : RequestValidation) (req : Request) :
    ((processRequestMeta schemas req = [] →
        ∃ r, processRequest schemas req = Outcome.advance r ∧
          nextCalls (processRequest schemas req) = 1) ∧
      (processRequestMeta schemas req ≠ [] →
        ∃ r, processRequest schemas req =
          Outcome.respond r (sendErrors (processRequestMeta schemas req)))) ∧
    ((validateRequestMeta schemas req = [] →
        validateRequest schemas req = Outcome.advance req ∧
        nextCalls (validateRequest schemas req) = 1) ∧
      (validateRequestMeta schemas req ≠ [] →
        validateRequest schemas req =
          Outcome.respond req (sendErrors (validateRequestMeta schemas req)))) := by
  refine ⟨⟨fun h => ?_, fun h => ?_⟩, ⟨fun h => ?_, fun h => ?_⟩⟩
  · exact ⟨processRequestFinal schemas req,
      by simp [processRequest_eq_spec, h, nextCalls],
      by simp [processRequest_eq_spec, h, nextCalls]⟩
  · exact ⟨processRequestFinal schemas req,
      by simp [processRequest_eq_spec, h, List.length_pos.mpr h]⟩
  · constructor <;> simp [validateRequest_eq_spec, h, nextCalls]
  · simp [validateRequest_eq_spec, h, List.length_pos.mpr h]

/-- Witness for C1 at concrete inputs: an unconfigured schema set advances,
and a schema set with failing params and body schemas responds with the
collected meta list. -/
theorem claim1_aggregate_all_sections_witness :
    (∃ r, processRequest noSchemas emptyReq = Outcome.advance r ∧
      nextCalls (processRequest noSchemas emptyReq) = 1) ∧
    (∃ r, processRequest pbFailSchemas emptyReq =
      Outcome.respond r (sendErrors (processRequestMeta pbFailSchemas emptyReq))) ∧
    validateRequest noSchemas emptyReq = Outcome.advance emptyReq ∧
    validateRequest pbFailSchemas emptyReq =
      Outcome.respond emptyReq (sendErrors (validateRequestMeta pbFailSchemas emptyReq)) := by
  refine ⟨(claim1_aggregate_all_sections noSchemas emptyReq).1.1 (by decide),
    (claim1_aggregate_all_sections pbFailSchemas emptyReq).1.2 (by decide),
    ((claim1_aggregate_all_sections noSchemas emptyReq).2.1 (by decide)).1,
    (claim1_aggregate_all_sections pbFailSchemas emptyReq).2.2 (by decide)⟩

/-- Claim C2: whenever at least one configured section's schema rejects its
input, `processRequest` writes exactly one response, with status 400 and
body `{success: false, errorCode: "bad_request", meta: [...]}` and never
invokes the continuation; the continuation is invoked at most once per
request, exactly once on the success path and never on the failure path. -/
theorem claim2_failure_single_400 (schemas : RequestValidation) (req : Request) :
    (processRequestMeta schemas req ≠ [] →
      responsesWritten (processRequest schemas req) = 1 ∧
      nextCalls (processRequest schemas req) = 0 ∧
      ∃ r env, processRequest schemas req = Outcome.respond r env ∧
        env.statusCode = 400 ∧ env.success = false ∧
        env.errorCode = "bad_request" ∧ env.meta ≠ []) ∧
    nextCalls (processRequest schemas req) ≤ 1 ∧
    (processRequestMeta schemas req = [] →
      nextCalls (processRequest schemas req) = 1 ∧
      responsesWritten (processRequest schemas req) = 0) := by
  refine ⟨fun h => ?_, ?_, fun h => ?_⟩
  · have hl := List.length_pos.mpr h
    refine ⟨by simp [processRequest_eq_spec, hl, responsesWritten],
      by simp [processRequest_eq_spec, hl, nextCalls],
      processRequestFinal schemas req, sendErrors (processRequestMeta schemas req),
      by simp [processRequest_eq_spec, hl], rfl, rfl, rfl, by simp [sendErrors, h]⟩
  · rw [processRequest_eq_spec]
    by_cases hc : (processRequestMeta schemas req).length > 0 <;>
      simp [hc, nextCalls]
  · constructor <;> simp [processRequest_eq_spec, h, nextCalls, responsesWritten]

/-- Witness for C2 at concrete inputs: failing params and body schemas give
one 400 response and no continuation call; an unconfigured schema set gives
one continuation call and no response. -/
theorem claim2_failure_single_400_witness :
    (responsesWritten (processRequest pbFailSchemas emptyReq) = 1 ∧
      nextCalls (processRequest pbFailSchemas emptyReq) = 0 ∧
      ∃ r env, processRequest pbFailSchemas emptyReq = Outcome.respond r env ∧
        env.statusCode = 400 ∧ env.success = false ∧
        env.errorCode = "bad_request" ∧ env.meta ≠ []) ∧
    nextCalls (processRequest noSchemas emptyReq) = 1 ∧
    responsesWritten (processRequest noSchemas emptyReq) = 0 := by
  refine ⟨(claim2_failure_single_400 pbFailSchemas emptyReq).1 (by decide),
    ((claim2_failure_single_400 noSchemas emptyReq).2.2 (by decide)).1,
    ((claim2_failure_single_400 noSchemas emptyReq).2.2 (by decide)).2⟩

/-- A query schema that succeeds and coerces to `{coerced: 7}`. -/
def c3QuerySchema : ZodSchema := fun _ => SafeParseResult.success [("coerced", 7)]

/-- A schema set with a succeeding query schema and a failing body schema. -/
def c3Schemas : RequestValidation :=
  { params := none, query := some c3QuerySchema, body := some rejectSchema }

/-- A request with query `{a: 1}` and empty params and body. -/
def c3Req : Request := { params := [], query := [("a", 1)], body := [] }

/-- Claim C3 (refuted by the code): on `c3Req` with `c3Schemas`, the body
schema fails, so the whole request is rejected — yet the response is written
with the request already mutated: its query section has been overwritten
with the coerced data `{a: 1, coerced: 7}` from the succeeding query
section, so the request observed after the failing invocation differs from
the request before it. -/
theorem claim3_mutated_despite_failure :
    processRequest c3Schemas c3Req =
      Outcome.respond
        { params := [], query := [("a", 1), ("coerced", 7)], body := [] }
        (sendErrors [{ type := SectionType.Body, errors := requiredErr }]) ∧
    outcomeReq (processRequest c3Schemas c3Req) ≠ c3Req := by
  constructor <;> decide

/-- The error `c4Schema` produces on rejection. -/
def badErr : ZodError := [{ path := [], message := "bad" }]

/-- A schema that accepts exactly the object `{p: 1}` and rejects everything
else. -/
def c4Schema : ZodSchema := fun v =>
  if v = [("p", 1)] then SafeParseResult.success v
  else SafeParseResult.failure badErr

/-- A request whose params section is `{p: 1}` (accepted by `c4Schema`) and
whose query section is `{q: 2}` (rejected by `c4Schema`). -/
def c4Req : Request := { params := [("p", 1)], query := [("q", 2)], body := [] }

/-- Claim C4 (refuted by the code): `processRequestParams` does not run the
schema against `request.params`.  With a schema that accepts the request's
params section `{p: 1}` and rejects its query section `{q: 2}`, the step
rejects the request — it parsed `req.query` (src/src/index.ts line 76) —
while `validateRequestParams`, which really reads `req.params` (line 153),
accepts the same request. -/
theorem claim4_params_step_reads_query :
    processRequestParams c4Schema c4Req =
      Outcome.respond c4Req (sendErrors [{ type := SectionType.Params, errors := badErr }]) ∧
    validateRequestParams c4Schema c4Req = Outcome.advance c4Req := by
  constructor <;> decide

/-- A params schema that succeeds and coerces to `{p: 9}`. -/
def c5Schema : ZodSchema := fun _ => SafeParseResult.success [("p", 9)]

/-- A schema set configuring only the params section. -/
def c5Schemas : RequestValidation :=
  { params := some c5Schema, query := none, body := none }

/-- A request with distinct contents in each section. -/
def c5Req : Request :=
  { params := [("id", 1)], query := [("q", 2)], body := [("b", 3)] }

/-- Claim C5 (refuted by the code): in `processRequest`, a successful params
parse does not overlay its coerced output `{p: 9}` onto `request.params` —
the source (src/src/index.ts line 114) merges it into `request.query`
instead.  After the step, params is unchanged, query was changed by the
params section's evaluation, and body is unchanged. -/
theorem claim5_params_success_writes_query :
    processRequest c5Schemas c5Req =
      Outcome.advance
        { params := [("id", 1)], query := [("q", 2), ("p", 9)], body := [("b", 3)] } := by
  decide

/-- A query schema that succeeds and coerces to `{k: 5}`. -/
def c6Schema : ZodSchema := fun _ => SafeParseResult.success [("k", 5)]

/-- A schema set configuring only the query section, with `c6Schema`. -/
def c6Schemas : RequestValidation :=
  { params := none, query := some c6Schema, body := none }

/-- Counterexample to claim C6: `validateRequest` and `processRequest` are
not extensionally equal.  On the empty request with a coercing query schema,
`validateRequest` advances with the request untouched while `processRequest`
advances with `{k: 5}` merged into the query section. -/
theorem claim6_counterexample :
    validateRequest c6Schemas emptyReq ≠ processRequest c6Schemas emptyReq := by
  decide

/-- Claim C6 as amended: `validateRequest` never applies the schema's
coercion to any section — on every request and schema set it either invokes
the continuation leaving the request exactly as it was, or writes an error
envelope leaving the request exactly as it was; it is therefore not
extensionally equal to `processRequest`, which coerces on success. -/
theorem claim6_validateRequest_never_coerces (schemas : RequestValidation) (req : Request) :
    validateRequest schemas req = Outcome.advance req ∨
    ∃ env, validateRequest schemas req = Outcome.respond req env := by
  rw [validateRequest_eq_spec]
  by_cases hc : (validateRequestMeta schemas req).length > 0
  · exact Or.inr ⟨_, by rw [if_pos hc]⟩
  · exact Or.inl (by rw [if_neg hc])

/-- Claim C7: for every schema and request, the single-section
validation-only steps `validateRequestBody`/`validateRequestParams`/
`validateRequestQuery` invoke the continuation leaving the whole request
unchanged when the schema accepts the section's value, and when it rejects
they write a status-400 envelope containing exactly one violation entry for
that section, without invoking the continuation and without touching the
request. -/
theorem claim7_validate_section (schema : ZodSchema) (req : Request) :
    (∀ d, schema req.body = SafeParseResult.success d →
      validateRequestBody schema req = Outcome.advance req) ∧
    (∀ e, schema req.body = SafeParseResult.failure e →
      validateRequestBody schema req =
        Outcome.respond req (sendErrors [{ type := SectionType.Body, errors := e }]) ∧
      (sendErrors [{ type := SectionType.Body, errors := e }]).statusCode = 400 ∧
      (sendErrors [{ type := SectionType.Body, errors := e }]).meta.length = 1) ∧
    (∀ d, schema req.params = SafeParseResult.success d →
      validateRequestParams schema req = Outcome.advance req) ∧
    (∀ e, schema req.params = SafeParseResult.failure e →
      validateRequestParams schema req =
        Outcome.respond req (sendErrors [{ type := SectionType.Params, errors := e }]) ∧
      (sendErrors [{ type := SectionType.Params, errors := e }]).statusCode = 400 ∧
      (sendErrors [{ type := SectionType.Params, errors := e }]).meta.length = 1) ∧
    (∀ d, schema req.query = SafeParseResult.success d →
      validateRequestQuery schema req = Outcome.advance req) ∧
    (∀ e, schema req.query = SafeParseResult.failure e →
      validateRequestQuery schema req =
        Outcome.respond req (sendErrors [{ type := SectionType.Query, errors := e }]) ∧
      (sendErrors [{ type := SectionType.Query, errors := e }]).statusCode = 400 ∧
      (sendErrors [{ type := SectionType.Query, errors := e }]).meta.length = 1) := by
  refine ⟨fun d h => ?_, fun e h => ?_, fun d h => ?_,
      fun e h => ?_, fun d h => ?_, fun e h => ?_⟩ <;>
    simp [validateRequestBody, validateRequestParams, validateRequestQuery, h, sendErrors]

/-- Witness for C7 at concrete inputs: the identity schema advances each
single-section validator on the empty request, and the rejecting body
schema responds with a single `Body` entry. -/
theorem claim7_validate_section_witness :
    validateRequestBody acceptIdSchema emptyReq = Outcome.advance emptyReq ∧
    validateRequestBody rejectSchema emptyReq =
      Outcome.respond emptyReq (sendErrors [{ type := SectionType.Body, errors := requiredErr }]) ∧
    validateRequestParams acceptIdSchema emptyReq = Outcome.advance emptyReq ∧
    validateRequestQuery acceptIdSchema emptyReq = Outcome.advance emptyReq := by
  refine ⟨(claim7_validate_section acceptIdSchema emptyReq).1 [] rfl,
    ((claim7_validate_section rejectSchema emptyReq).2.1 requiredErr rfl).1,
    (claim7_validate_section acceptIdSchema emptyReq).2.2.1 [] rfl,
    (claim7_validate_section acceptIdSchema emptyReq).2.2.2.2.1 [] rfl⟩

/-- Claim C8: for the query-section processing step, if the existing query
section equals `{a: 1, b: 2}` and the schema's successful parse of it
yields `{b: 3, c: 4}`, the post-step query section equals
`{a: 1, b: 3, c: 4}`: coerced values win on key collision and unmentioned
existing keys are retained. -/
theorem claim8_query_merge_policy (schema : ZodSchema) (req : Request)
    (h1 : req.query = [("a", 1), ("b", 2)])
    (h2 : schema [("a", 1), ("b", 2)] = SafeParseResult.success [("b", 3), ("c", 4)]) :
    processRequestQuery schema req =
      Outcome.advance { req with query := [("a", 1), ("b", 3), ("c", 4)] } := by
  have hm : spreadMerge [("a", 1), ("b", 2)] [("b", 3), ("c", 4)]
      = [("a", 1), ("b", 3), ("c", 4)] := by decide
  simp [processRequestQuery, h1, h2, hm]

/-- A schema whose parse always yields `{b: 3, c: 4}`. -/
def c8Schema : ZodSchema := fun _ => SafeParseResult.success [("b", 3), ("c", 4)]

/-- A request whose query section is `{a: 1, b: 2}`. -/
def c8Req : Request := { params := [], query := [("a", 1), ("b", 2)], body := [] }

/-- Witness for C8 at the concrete request and schema of the claim. -/
theorem claim8_query_merge_policy_witness :
    processRequestQuery c8Schema c8Req =
      Outcome.advance { c8Req with query := [("a", 1), ("b", 3), ("c", 4)] } :=
  claim8_query_merge_policy c8Schema c8Req rfl rfl

/-- Claim C9: running a validation-only single-section step twice on the
same request with the same valid input is idempotent — the first run
advances leaving the request in some state `r` (in fact unchanged), and the
second run on `r` advances with exactly the same state again. -/
theorem claim9_validate_idempotent (schema : ZodSchema) (req : Request) :
    (∀ d, schema req.body = SafeParseResult.success d →
      ∃ r, validateRequestBody schema req = Outcome.advance r ∧
        validateRequestBody schema r = Outcome.advance r ∧ r = req) ∧
    (∀ d, schema req.params = SafeParseResult.success d →
      ∃ r, validateRequestParams schema req = Outcome.advance r ∧
        validateRequestParams schema r = Outcome.advance r ∧ r = req) ∧
    (∀ d, schema req.query = SafeParseResult.success d →
      ∃ r, validateRequestQuery schema req = Outcome.advance r ∧
        validateRequestQuery schema r = Outcome.advance r ∧ r = req) := by
  refine ⟨fun d h => ⟨req, ?_, ?_, rfl⟩, fun d h => ⟨req, ?_, ?_, rfl⟩,
      fun d h => ⟨req, ?_, ?_, rfl⟩⟩ <;>
    simp [validateRequestBody, validateRequestParams, validateRequestQuery, h]

/-- Witness for C9: the identity schema on the empty request, for each of
the three single-section validators. -/
theorem claim9_validate_idempotent_witness :
    (∃ r, validateRequestBody acceptIdSchema emptyReq = Outcome.advance r ∧
      validateRequestBody acceptIdSchema r = Outcome.advance r ∧ r = emptyReq) ∧
    (∃ r, validateRequestParams acceptIdSchema emptyReq = Outcome.advance r ∧
      validateRequestParams acceptIdSchema r = Outcome.advance r ∧ r = emptyReq) ∧
    (∃ r, validateRequestQuery acceptIdSchema emptyReq = Outcome.advance r ∧
      validateRequestQuery acceptIdSchema r = Outcome.advance r ∧ r = emptyReq) :=
  ⟨(claim9_validate_idempotent acceptIdSchema emptyReq).1 [] rfl,
    (claim9_validate_idempotent acceptIdSchema emptyReq).2.1 [] rfl,
    (claim9_validate_idempotent acceptIdSchema emptyReq).2.2 [] rfl⟩

/-- Relabel a `Params`-tagged error item as `Query`. -/
def relabelEntry (e : ErrorListItem) : ErrorListItem :=
  { e with type := if e.type = SectionType.Params then SectionType.Query else e.type }

/-- Relabel every `Params`-tagged error item in an outcome's envelope as
`Query`, leaving everything else alone. -/
def relabelOutcome : Outcome → Outcome
  | .advance r => .advance r
  | .respond r env => .respond r { env with meta := env.meta.map relabelEntry }

/-- Replace the params section of a request. -/
def setParams (req : Request) (p : Obj) : Request := { req with params := p }

/-- Replace the params section of the request state an outcome carries. -/
def withParams (p : Obj) : Outcome → Outcome
  | .advance r => .advance (setParams r p)
  | .respond r env => .respond (setParams r p) env

/-- Claim C10: `processRequestParams` and `processRequestQuery` are
extensionally identical except for the error label (`Params` versus
`Query`); both read and merge into `request.query`, and
`processRequestParams` never reads `request.params` (its outcome on any
request is invariant under replacing the params section, which is only
passed through) and never writes `request.params` or `request.body`. -/
theorem claim10_params_query_twins (schema : ZodSchema) (req : Request) :
    processRequestQuery schema req = relabelOutcome (processRequestParams schema req) ∧
    (∀ p, processRequestParams schema (setParams req p) =
      withParams p (processRequestParams schema req)) ∧
    (outcomeReq (processRequestParams schema req)).params = req.params ∧
    (outcomeReq (processRequestParams schema req)).body = req.body := by
  cases h : schema req.query with
  | success d =>
    refine ⟨?_, fun p => ?_, ?_, ?_⟩ <;>
      simp [processRequestParams, processRequestQuery, relabelOutcome,
        withParams, setParams, outcomeReq, h]
  | failure e =>
    refine ⟨?_, fun p => ?_, ?_, ?_⟩ <;>
      simp [processRequestParams, processRequestQuery, relabelOutcome,
        relabelEntry, withParams, setParams, outcomeReq, sendErrors, h]

end ZodMiddleware
